import Mathlib

/-!
Verification of the Dreamcast FatFs adapter layer (src/fatfs/src/dc.c and
src/fatfs/src/dc_bdev.c) against its natural-language specification.

The development shallowly embeds the relevant C functions as executable Lean
definitions: machine integers become `Nat`/`Int` (with explicit masks where the
code masks), fallible and stateful code passes its state explicitly, and
external collaborators (the FAT engine, block devices, the allocator) are
parameters of the embedded functions.
-/

namespace FatFsDc

/-! ## Host errno constants (newlib values as used by KallistiOS) -/

def ENOENT : Nat := 2
def EIO : Nat := 5
def ENXIO : Nat := 6
def EBADF : Nat := 9
def EAGAIN : Nat := 11
def ENOMEM : Nat := 12
def EACCES : Nat := 13
def EFAULT : Nat := 14
def ENODEV : Nat := 19
def EINVAL : Nat := 22
def ENFILE : Nat := 23
def EMFILE : Nat := 24
def ENOSPC : Nat := 28
def EROFS : Nat := 30
def EIDRM : Nat := 36
def ETIME : Nat := 62

/-! ## FAT engine result codes (FRESULT, as enumerated in the comments of
`fatfs_set_errno`, dc.c lines 136-200) -/

def FR_OK : Nat := 0
def FR_DISK_ERR : Nat := 1
def FR_NOT_ENOUGH_CORE : Nat := 17

/-! ## Error Translator: `fatfs_set_errno`, dc.c lines 136-200.

The C function mutates the global `errno`; the embedding takes the previous
errno value and returns the new one.  The `FR_DISK_ERR` case is an empty
`case` body in the source (errno "already set in driver"), so it returns the
previous value unchanged. -/

def fatfs_set_errno (rc : Nat) (e : Nat) : Nat :=
  match rc with
  | 0 => 0            -- FR_OK
  | 1 => e            -- FR_DISK_ERR: already set in driver
  | 2 => EFAULT       -- FR_INT_ERR
  | 3 => ENODEV       -- FR_NOT_READY
  | 4 => ENOENT       -- FR_NO_FILE
  | 5 => ENOENT       -- FR_NO_PATH
  | 6 => EINVAL       -- FR_INVALID_NAME
  | 7 => ENOSPC       -- FR_DENIED
  | 8 => EACCES       -- FR_EXIST
  | 9 => EBADF        -- FR_INVALID_OBJECT
  | 10 => EROFS       -- FR_WRITE_PROTECTED
  | 11 => ENXIO       -- FR_INVALID_DRIVE
  | 12 => EIDRM       -- FR_NOT_ENABLED
  | 13 => EIO         -- FR_NO_FILESYSTEM
  | 14 => EINVAL      -- FR_MKFS_ABORTED
  | 15 => ETIME       -- FR_TIMEOUT
  | 16 => EAGAIN      -- FR_LOCKED
  | 17 => ENOMEM      -- FR_NOT_ENOUGH_CORE
  | 18 => EMFILE      -- FR_TOO_MANY_OPEN_FILES
  | 19 => EINVAL      -- FR_INVALID_PARAMETER
  | _ => 0            -- default

/-! ## Partition Scanner: dc_bdev.c -/

/-- `is_fat_partition`, dc_bdev.c lines 48-59: classify an MBR partition-type
byte.  Returns 16 for FAT16-style types (0x04, 0x06), 32 for FAT32-style types
(0x0B, 0x0C), 0 for everything else. -/
def is_fat_partition (partition_type : Nat) : Nat :=
  if partition_type = 0x04 ∨ partition_type = 0x06 then 16
  else if partition_type = 0x0B ∨ partition_type = 0x0C then 32
  else 0

/-- `check_partition`, dc_bdev.c lines 61-77.  `buf` is the 512-byte boot
sector, read as byte at index.  Returns -1 when the MBR signature bytes
(0x55 at offset 0x1FE, 0xAA at offset 0x1FF) are absent, -1 when the slot's
partition-type byte (offset 16*partition + 0x1BE + 4) is zero, 0 otherwise. -/
def check_partition (buf : Nat → Nat) (partition : Nat) : Int :=
  if buf 0x1FE ≠ 0x55 ∨ buf 0x1FF ≠ 0xAA then -1
  else
    let pval := 16 * partition + 0x1BE
    if buf (pval + 4) = 0 then -1
    else 0

/-- One iteration of the partition loop of `fs_fat_mount_sd` /
`fs_fat_mount_ide`, dc_bdev.c lines 144-193 and 238-297: a partition is
skipped when `check_partition` rejects it, when the per-partition block
device cannot be produced, or when its type byte is not a recognized FAT
type; only a recognized FAT type leads to a mount attempt.  The surrounding
loop continues in every case and the function returns 0 regardless. -/
inductive PartAction where
  | skip
  | tryMount
deriving DecidableEq

def mount_loop_action (buf : Nat → Nat) (part : Nat) (partition_type : Nat)
    (blockdevOk : Bool) : PartAction :=
  if check_partition buf part ≠ 0 then PartAction.skip
  else if ¬blockdevOk then PartAction.skip
  else if is_fat_partition partition_type ≠ 0 then PartAction.tryMount
  else PartAction.skip

/-- A 512-byte boot sector with no MBR signature: every byte zero. -/
def mbrNoSig : Nat → Nat := fun _ => 0

/-- A 512-byte boot sector with a valid MBR signature but a zero type byte in
every partition slot. -/
def mbrEmptySlot : Nat → Nat := fun i =>
  if i = 0x1FE then 0x55 else if i = 0x1FF then 0xAA else 0

/-! ## Claim C3 -/

/-- C3 counterexample: the scan does NOT distinguish a missing MBR signature
from an empty partition slot.  On a concrete all-zero sector (no signature)
and on a concrete sector with the signature but a zero type byte in slot 0,
`check_partition` returns the very same value, -1, so the two conditions do
not produce distinguishable results. -/
theorem C3_counterexample :
    check_partition mbrNoSig 0 = -1 ∧
    check_partition mbrEmptySlot 0 = -1 ∧
    check_partition mbrNoSig 0 = check_partition mbrEmptySlot 0 := by
  refine ⟨by decide, by decide, by decide⟩

/-- C3 (amended): both a missing MBR signature and a zero type byte at the
slot's entry make `check_partition` return -1, and a valid signature with a
nonzero type byte returns 0; the missing-signature condition yields -1 for
every slot whereas the empty-slot condition is decided per slot, but the
return value itself does not separate the two causes. -/
theorem C3_scan_results (buf : Nat → Nat) (p : Nat) :
    (¬(buf 0x1FE = 0x55 ∧ buf 0x1FF = 0xAA) → check_partition buf p = -1) ∧
    (buf 0x1FE = 0x55 → buf 0x1FF = 0xAA →
      buf (16 * p + 0x1BE + 4) = 0 → check_partition buf p = -1) ∧
    (buf 0x1FE = 0x55 → buf 0x1FF = 0xAA →
      buf (16 * p + 0x1BE + 4) ≠ 0 → check_partition buf p = 0) := by
  refine ⟨fun h => ?_, fun h1 h2 h3 => ?_, fun h1 h2 h3 => ?_⟩
  · unfold check_partition
    rw [if_pos (by tauto)]
  · simp [check_partition, h1, h2, h3]
  · simp [check_partition, h1, h2, h3]

/-- C3 witness: the amended theorem applied at a concrete buffer and slot. -/
theorem C3_scan_results_witness :
    check_partition mbrNoSig 2 = -1 :=
  (C3_scan_results mbrNoSig 2).1 (by decide)

/-! ## Claim C4 -/

/-- C4: the error translator is total: the disk-error code `FR_DISK_ERR`
leaves the previously set errno unchanged; every code outside the enumeration
(above 19) maps to "no error" (0); and every other code's mapping is a fixed
errno value, independent of the previously set errno. -/
theorem C4_errno_translator_total :
    (∀ e, fatfs_set_errno FR_DISK_ERR e = e) ∧
    (∀ rc e, 19 < rc → fatfs_set_errno rc e = 0) ∧
    (∀ rc e, rc ≠ FR_DISK_ERR → fatfs_set_errno rc e = fatfs_set_errno rc 0) := by
  refine ⟨fun e => rfl, fun rc e h => ?_, fun rc e h => ?_⟩
  · obtain ⟨n, rfl⟩ : ∃ n, rc = n + 20 := ⟨rc - 20, by omega⟩
    rfl
  · simp only [FR_DISK_ERR] at h
    rcases Nat.lt_or_ge rc 20 with h20 | h20
    · interval_cases rc <;> first | rfl | exact absurd rfl h
    · obtain ⟨n, rfl⟩ : ∃ n, rc = n + 20 := ⟨rc - 20, by omega⟩
      rfl

/-- C4 witness: the translator theorem applied at concrete codes: the
disk-error code preserves errno 42; the out-of-enumeration code 25 maps to 0;
the no-file code 4 maps independently of the prior errno. -/
theorem C4_errno_translator_witness :
    fatfs_set_errno FR_DISK_ERR 42 = 42 ∧
    fatfs_set_errno 25 7 = 0 ∧
    fatfs_set_errno 4 99 = fatfs_set_errno 4 0 :=
  ⟨C4_errno_translator_total.1 42,
   C4_errno_translator_total.2.1 25 7 (by decide),
   C4_errno_translator_total.2.2 4 99 (by decide)⟩

/-! ## Claim C9 -/

/-- C9: the FAT classifier maps 0x04 and 0x06 to the FAT16 classification
(16), 0x0B and 0x0C to the FAT32 classification (32), and every other byte
(zero included) to 0 ("not FAT"); and in the partition loop an unrecognized
type makes the caller skip the partition rather than fail. -/
theorem C9_fat_classifier (b : Nat) :
    (is_fat_partition 0x04 = 16 ∧ is_fat_partition 0x06 = 16) ∧
    (is_fat_partition 0x0B = 32 ∧ is_fat_partition 0x0C = 32) ∧
    (b ≠ 0x04 → b ≠ 0x06 → b ≠ 0x0B → b ≠ 0x0C → is_fat_partition b = 0) ∧
    (∀ buf part okdev, is_fat_partition b = 0 →
      mount_loop_action buf part b okdev = PartAction.skip) := by
  refine ⟨⟨rfl, rfl⟩, ⟨rfl, rfl⟩, fun h4 h6 hB hC => ?_, fun buf part okdev h0 => ?_⟩
  · unfold is_fat_partition
    rw [if_neg (by tauto), if_neg (by tauto)]
  · simp only [mount_loop_action, h0]
    split_ifs <;> simp_all

/-- C9 witness: the classifier theorem applied to the concrete unrecognized
type byte 0x83 (a Linux partition): classified 0 and skipped by the loop. -/
theorem C9_fat_classifier_witness :
    is_fat_partition 0x83 = 0 ∧
    mount_loop_action mbrEmptySlot 0 0x83 true = PartAction.skip :=
  ⟨(C9_fat_classifier 0x83).2.2.1 (by decide) (by decide) (by decide) (by decide),
   (C9_fat_classifier 0x83).2.2.2 mbrEmptySlot 0 true
     ((C9_fat_classifier 0x83).2.2.1 (by decide) (by decide) (by decide) (by decide))⟩

/-! ## Fast-seek link map: `fat_create_linkmap`, dc.c lines 202-242.

The handle's `fil.cltbl` pointer is either NULL, the inline 32-entry array
`sf->lktbl`, or a separately heap-allocated array; the embedding tags the
three cases.  The engine call `f_lseek(&sf->fil, CREATE_LINKMAP)` is a
parameter: it receives the value placed in the attached buffer's first cell
(its capacity, per the engine's length-prefix convention) and yields a result
code together with the value it leaves in that first cell (the required size
when it reports `FR_NOT_ENOUGH_CORE`).  `calloc` success is the `allocOk`
parameter. -/

def FATFS_LINK_TBL_SIZE : Nat := 32

inductive Cltbl where
  | noTbl
  | inlineTbl (firstCell : Nat)
  | heapTbl (size : Nat) (firstCell : Nat)
deriving DecidableEq

structure EngineReply where
  rc : Nat
  firstCell : Nat
deriving DecidableEq

structure LinkmapOutcome where
  cltbl : Cltbl
  rc : Nat
  calls : List Nat    -- first-cell capacities handed to the engine, in order
deriving DecidableEq

def fat_create_linkmap (engine : Nat → EngineReply) (allocOk : Nat → Bool)
    (cl : Cltbl) : LinkmapOutcome :=
  if cl ≠ Cltbl.noTbl then
    -- dc.c 205-207: already attached, return FR_OK with no engine call
    { cltbl := cl, rc := FR_OK, calls := [] }
  else
    -- dc.c 209-214: zero lktbl, attach it, lktbl[0] = 32, f_lseek(CREATE_LINKMAP)
    let r1 := engine FATFS_LINK_TBL_SIZE
    let step : LinkmapOutcome :=
      if r1.rc = FR_NOT_ENOUGH_CORE then
        -- dc.c 216-231: the engine wrote the required size into cell 0
        let lms := r1.firstCell
        if allocOk lms then
          let r2 := engine lms
          -- dc.c 224-230: new buffer, cell 0 = lms, single retry;
          -- on retry failure the heap buffer is freed
          { cltbl := Cltbl.heapTbl lms r2.firstCell, rc := r2.rc,
            calls := [FATFS_LINK_TBL_SIZE, lms] }
        else
          { cltbl := Cltbl.noTbl, rc := FR_NOT_ENOUGH_CORE,
            calls := [FATFS_LINK_TBL_SIZE] }
      else
        { cltbl := Cltbl.inlineTbl r1.firstCell, rc := r1.rc,
          calls := [FATFS_LINK_TBL_SIZE] }
    -- dc.c 234-237: if (rc != FR_OK) cltbl = NULL
    if step.rc ≠ FR_OK then { step with cltbl := Cltbl.noTbl } else step

/-! ## Claim C1 -/

/-- C1: the link-map builder protocol.  (a) With a link map already attached
it returns success with no engine call; (b) otherwise it attaches the inline
32-entry buffer, first cell set to its capacity 32, and issues one engine
call; a first-call success keeps the inline buffer attached; (c) if the
engine reports the buffer too small having written the required size `req`
into the first cell, exactly one retry happens with a freshly allocated
buffer of exactly `req` cells whose first cell is set to `req` (the engine is
called again with capacity `req`); a successful retry leaves that heap buffer
attached; (d) if the retry fails, or the allocation fails, the link-map
pointer is reset to null and the failure code is reported. -/
theorem C1_linkmap_protocol (engine : Nat → EngineReply) (allocOk : Nat → Bool) :
    (∀ cl, cl ≠ Cltbl.noTbl →
      fat_create_linkmap engine allocOk cl = ⟨cl, FR_OK, []⟩) ∧
    ((engine FATFS_LINK_TBL_SIZE).rc = FR_OK →
      fat_create_linkmap engine allocOk Cltbl.noTbl =
        ⟨Cltbl.inlineTbl (engine FATFS_LINK_TBL_SIZE).firstCell, FR_OK,
         [FATFS_LINK_TBL_SIZE]⟩) ∧
    (∀ req, engine FATFS_LINK_TBL_SIZE = ⟨FR_NOT_ENOUGH_CORE, req⟩ →
      allocOk req = true → (engine req).rc = FR_OK →
      fat_create_linkmap engine allocOk Cltbl.noTbl =
        ⟨Cltbl.heapTbl req (engine req).firstCell, FR_OK,
         [FATFS_LINK_TBL_SIZE, req]⟩) ∧
    (∀ req, engine FATFS_LINK_TBL_SIZE = ⟨FR_NOT_ENOUGH_CORE, req⟩ →
      allocOk req = true → (engine req).rc ≠ FR_OK →
      fat_create_linkmap engine allocOk Cltbl.noTbl =
        ⟨Cltbl.noTbl, (engine req).rc, [FATFS_LINK_TBL_SIZE, req]⟩) ∧
    (∀ req, engine FATFS_LINK_TBL_SIZE = ⟨FR_NOT_ENOUGH_CORE, req⟩ →
      allocOk req = false →
      fat_create_linkmap engine allocOk Cltbl.noTbl =
        ⟨Cltbl.noTbl, FR_NOT_ENOUGH_CORE, [FATFS_LINK_TBL_SIZE]⟩) ∧
    ((engine FATFS_LINK_TBL_SIZE).rc ≠ FR_OK →
      (engine FATFS_LINK_TBL_SIZE).rc ≠ FR_NOT_ENOUGH_CORE →
      fat_create_linkmap engine allocOk Cltbl.noTbl =
        ⟨Cltbl.noTbl, (engine FATFS_LINK_TBL_SIZE).rc, [FATFS_LINK_TBL_SIZE]⟩) := by
  refine ⟨fun cl hcl => ?_, fun h1 => ?_, fun req h1 ha h2 => ?_,
    fun req h1 ha h2 => ?_, fun req h1 ha => ?_, fun h1 h2 => ?_⟩
  · simp [fat_create_linkmap, hcl]
  · simp [fat_create_linkmap, h1, FR_OK, FR_NOT_ENOUGH_CORE]
  · simp [fat_create_linkmap, h1, ha, h2, FR_OK, FR_NOT_ENOUGH_CORE]
  · simp only [FR_OK] at h2
    simp [fat_create_linkmap, h1, ha, h2, FR_OK, FR_NOT_ENOUGH_CORE]
  · simp [fat_create_linkmap, h1, ha, FR_OK, FR_NOT_ENOUGH_CORE]
  · simp [fat_create_linkmap, h1, h2]

/-- A concrete engine for the C1 witness: capacity 32 is too small and needs
64 cells; capacity 64 succeeds leaving 64 in the first cell. -/
def engineNeeds64 : Nat → EngineReply := fun c =>
  if c = 32 then ⟨FR_NOT_ENOUGH_CORE, 64⟩ else ⟨FR_OK, 64⟩

/-- C1 witness: the protocol theorem applied to a concrete engine whose
first call overflows the inline buffer (required size 64) and whose retry
succeeds, and to a concrete already-attached handle. -/
theorem C1_linkmap_protocol_witness :
    fat_create_linkmap engineNeeds64 (fun _ => true) Cltbl.noTbl =
      ⟨Cltbl.heapTbl 64 64, FR_OK, [32, 64]⟩ ∧
    fat_create_linkmap engineNeeds64 (fun _ => true) (Cltbl.inlineTbl 32) =
      ⟨Cltbl.inlineTbl 32, FR_OK, []⟩ :=
  ⟨(C1_linkmap_protocol engineNeeds64 (fun _ => true)).2.2.1 64
      (by decide) (by decide) (by decide),
   (C1_linkmap_protocol engineNeeds64 (fun _ => true)).1
      (Cltbl.inlineTbl 32) (by decide)⟩

/-! ## Open-flag constants (newlib/KallistiOS values) -/

def O_RDONLY : Nat := 0
def O_WRONLY : Nat := 1
def O_RDWR : Nat := 2
def O_APPEND : Nat := 0x0008
def O_MODE_MASK : Nat := 0x0f

/-! ## Claim C5: append positioning in `fat_open`, dc.c lines 338-354. -/

/-- The cursor position established by a successful `fat_open` of a file:
`f_open` leaves the cursor at 0; then, dc.c lines 351-354, if `O_APPEND` is
set and the file size is nonzero, `f_lseek(&sf->fil, sf->fil.fsize - 1)`
moves it to size - 1. -/
def fat_open_cursor (flags : Nat) (fsize : Nat) : Nat :=
  if flags &&& O_APPEND ≠ 0 ∧ fsize > 0 then fsize - 1 else 0

/-- C5: a successful open with the append flag on a non-empty file positions
the cursor at size - 1, which is strictly below size. -/
theorem C5_append_off_by_one (flags fsize : Nat)
    (happ : flags &&& O_APPEND ≠ 0) (hsz : 0 < fsize) :
    fat_open_cursor flags fsize = fsize - 1 ∧
    fat_open_cursor flags fsize ≠ fsize := by
  unfold fat_open_cursor
  rw [if_pos ⟨happ, hsz⟩]
  omega

/-- C5 witness: opening with `O_APPEND` a file of size 5 leaves the cursor at
4, not 5. -/
theorem C5_append_off_by_one_witness :
    fat_open_cursor O_APPEND 5 = 4 ∧ fat_open_cursor O_APPEND 5 ≠ 5 :=
  C5_append_off_by_one O_APPEND 5 (by decide) (by decide)

/-! ## Claim C6: `fat_close`, dc.c lines 360-390. -/

/-- The handle's `type` field: `STAT_TYPE_FILE`, `STAT_TYPE_DIR`, or any
other value (a zeroed slot). -/
inductive HandleType where
  | file
  | dir
  | other
deriving DecidableEq

structure FileHandle where
  used : Bool
  type : HandleType
  cltbl : Cltbl
deriving DecidableEq

structure CloseOutcome where
  used : Bool         -- the slot's used flag after the call
  heapFreed : Bool    -- whether free() was called on the link-map buffer
  ret : Int
deriving DecidableEq

/-- `fat_close`: `sf->used = 0` happens first, unconditionally (dc.c 362).
For a file, the link-map buffer is freed exactly when `fil.cltbl` is neither
NULL nor the inline `sf->lktbl` array (dc.c 369-372), then `f_close` runs;
for a directory `f_closedir` runs; any other type returns -1 immediately.
An engine close failure still returns -1 with the slot already freed
(dc.c 382-387).  `engineClose` is the engine's close result code. -/
def fat_close (engineClose : Nat) (h : FileHandle) : CloseOutcome :=
  match h.type with
  | HandleType.file =>
    let heapFreed :=
      match h.cltbl with
      | Cltbl.heapTbl _ _ => true
      | _ => false
    if engineClose ≠ FR_OK then ⟨false, heapFreed, -1⟩ else ⟨false, heapFreed, 0⟩
  | HandleType.dir =>
    if engineClose ≠ FR_OK then ⟨false, false, -1⟩ else ⟨false, false, 0⟩
  | HandleType.other => ⟨false, false, -1⟩

/-- C6: close marks the slot free unconditionally, even when the engine-level
close fails, in which case it still returns -1; and it frees the link-map
buffer exactly when the handle is a file whose attached buffer is the
heap-allocated variant -- never the inline array and never a null pointer. -/
theorem C6_close_frees_slot (rc : Nat) (h : FileHandle) :
    (fat_close rc h).used = false ∧
    ((fat_close rc h).heapFreed = true ↔
      (h.type = HandleType.file ∧ ∃ s c, h.cltbl = Cltbl.heapTbl s c)) ∧
    (rc ≠ FR_OK → (fat_close rc h).ret = -1) ∧
    (rc = FR_OK → h.type ≠ HandleType.other → (fat_close rc h).ret = 0) := by
  obtain ⟨u, t, cl⟩ := h
  refine ⟨?_, ?_, fun hrc => ?_, fun hrc ht => ?_⟩
  · cases t <;> simp only [fat_close] <;> split_ifs <;> rfl
  · cases t <;> cases cl <;> simp [fat_close] <;> split_ifs <;> simp
  · cases t <;> simp [fat_close, hrc]
  · cases t <;> simp_all [fat_close, FR_OK]

/-- C6 witness: closing a file handle holding a heap link map while the
engine close fails with FR_INVALID_OBJECT (9): the slot is freed, the heap
buffer is freed, and -1 is returned; closing a directory handle with a
successful engine close frees the slot and returns 0. -/
theorem C6_close_frees_slot_witness :
    (fat_close 9 ⟨true, HandleType.file, Cltbl.heapTbl 64 64⟩).used = false ∧
    (fat_close 9 ⟨true, HandleType.file, Cltbl.heapTbl 64 64⟩).heapFreed = true ∧
    (fat_close 9 ⟨true, HandleType.file, Cltbl.heapTbl 64 64⟩).ret = -1 ∧
    (fat_close 0 ⟨true, HandleType.dir, Cltbl.noTbl⟩).ret = 0 :=
  ⟨(C6_close_frees_slot 9 ⟨true, HandleType.file, Cltbl.heapTbl 64 64⟩).1,
   (C6_close_frees_slot 9 ⟨true, HandleType.file, Cltbl.heapTbl 64 64⟩).2.1.mpr
     ⟨rfl, 64, 64, rfl⟩,
   (C6_close_frees_slot 9 ⟨true, HandleType.file, Cltbl.heapTbl 64 64⟩).2.2.1
     (by decide),
   (C6_close_frees_slot 0 ⟨true, HandleType.dir, Cltbl.noTbl⟩).2.2.2
     (by decide) (by decide)⟩

/-! ## Block Device Router: `disk_read` (dc.c 852-893) and `disk_write`
(dc.c 901-940).

Only the routing decision is embedded: which physical device services the
request and which buffer the transfer targets.  The `FATFS_USE_DMA_BUF`
compile switch is taken as enabled; it is not defined under src/, and the
specification (sections 3 and 4.3) describes the per-volume DMA scratch
buffer as present whenever a DMA device is.  Note dc.c 868-871 selects the
scratch path on `count <= mnt->fs->csize` alone, without checking that the
scratch buffer allocation succeeded. -/

inductive Device where
  | pio
  | dma
deriving DecidableEq

inductive DestBuf where
  | caller
  | scratch
deriving DecidableEq

structure MntDev where
  hasDma : Bool      -- mnt->dev_dma != NULL
  hasDmaBuf : Bool   -- mnt->dmabuf != NULL (not consulted by the routing)
  csize : Nat        -- mnt->fs->csize, sectors per cluster
deriving DecidableEq

/-- Routing decision of `disk_read`: device and destination buffer.
`buffAddr` is the numeric value of the caller's buffer pointer; the DMA
alignment test is `(uintptr_t)buff & 31 == 0`. -/
def disk_read_route (m : MntDev) (buffAddr : Nat) (count : Nat) :
    Device × DestBuf :=
  if 1 < count ∧ m.hasDma = true then
    if buffAddr % 32 = 0 then (Device.dma, DestBuf.caller)
    else if count ≤ m.csize then (Device.dma, DestBuf.scratch)
    else (Device.pio, DestBuf.caller)
  else (Device.pio, DestBuf.caller)

/-- Routing decision of `disk_write`: the DMA selection block is compiled
out (`#if 0`, dc.c 911-924), so every write uses the primary PIO device with
the caller's buffer. -/
def disk_write_route (m : MntDev) (buffAddr : Nat) (count : Nat) :
    Device × DestBuf :=
  (Device.pio, DestBuf.caller)

/-! ## Claim C2 -/

/-- C2 counterexample: an unaligned two-sector read on a volume with a DMA
device and cluster size 8 is routed through the DMA device into the scratch
buffer, not through the primary PIO device with the caller's buffer as the
claim's "otherwise" clause states. -/
theorem C2_counterexample :
    disk_read_route ⟨true, true, 8⟩ 4 2 = (Device.dma, DestBuf.scratch) ∧
    disk_read_route ⟨true, true, 8⟩ 4 2 ≠ (Device.pio, DestBuf.caller) := by
  refine ⟨by decide, by decide⟩

/-- C2 (amended): the DMA device is used directly with the caller's buffer
exactly when the request spans more than one sector, a DMA device is
registered, and the buffer is 32-byte aligned.  Otherwise, if the request
still spans more than one sector on a DMA-capable volume and fits within one
cluster, the DMA device is used with the per-volume scratch buffer; in every
remaining case the primary PIO device is used with the caller's buffer.
Every write is routed through the primary PIO device with the caller's
buffer regardless of count and alignment. -/
theorem C2_dma_routing (m : MntDev) (addr count : Nat) :
    (disk_read_route m addr count = (Device.dma, DestBuf.caller) ↔
      (1 < count ∧ m.hasDma = true ∧ addr % 32 = 0)) ∧
    (1 < count → m.hasDma = true → addr % 32 ≠ 0 → count ≤ m.csize →
      disk_read_route m addr count = (Device.dma, DestBuf.scratch)) ∧
    (¬(1 < count ∧ m.hasDma = true) →
      disk_read_route m addr count = (Device.pio, DestBuf.caller)) ∧
    (addr % 32 ≠ 0 → m.csize < count →
      disk_read_route m addr count = (Device.pio, DestBuf.caller)) ∧
    disk_write_route m addr count = (Device.pio, DestBuf.caller) := by
  refine ⟨?_, fun h1 h2 h3 h4 => ?_, fun h => ?_, fun h1 h2 => ?_, rfl⟩
  · unfold disk_read_route
    split_ifs with hc ha hs <;> simp_all
  · unfold disk_read_route
    rw [if_pos ⟨h1, h2⟩, if_neg h3, if_pos h4]
  · unfold disk_read_route
    rw [if_neg h]
  · unfold disk_read_route
    split_ifs <;> first | rfl | (exfalso; omega)

/-- C2 witness: the amended routing theorem applied at concrete requests: an
aligned 4-sector read on a DMA volume goes DMA-direct; a single-sector read
goes PIO; an unaligned 16-sector read with cluster size 8 goes PIO; a write
goes PIO. -/
theorem C2_dma_routing_witness :
    disk_read_route ⟨true, true, 8⟩ 64 4 = (Device.dma, DestBuf.caller) ∧
    disk_read_route ⟨true, true, 8⟩ 64 1 = (Device.pio, DestBuf.caller) ∧
    disk_read_route ⟨true, true, 8⟩ 4 16 = (Device.pio, DestBuf.caller) ∧
    disk_write_route ⟨true, true, 8⟩ 4 16 = (Device.pio, DestBuf.caller) :=
  ⟨(C2_dma_routing ⟨true, true, 8⟩ 64 4).1.mpr ⟨by decide, rfl, by decide⟩,
   (C2_dma_routing ⟨true, true, 8⟩ 64 1).2.2.1 (by decide),
   (C2_dma_routing ⟨true, true, 8⟩ 4 16).2.2.2.1 (by decide) (by decide),
   (C2_dma_routing ⟨true, true, 8⟩ 4 16).2.2.2.2⟩

/-! ## `fat_read`, dc.c lines 392-422.

The embedding records the returned byte count, the cursor, the attached link
map and the number of engine invocations (`f_lseek(CREATE_LINKMAP)` calls
issued by the opportunistic link-map build plus the `f_read` call).  The
`f_read` call itself is modelled as a successful bounded read of
`min size (fsize - fptr)` bytes; the zero-size claim never reaches it. -/

structure ReadHandle where
  mode : Nat      -- sf->mode, the open flags
  cltbl : Cltbl   -- sf->fil.cltbl
  fsize : Nat     -- f_size(&sf->fil)
  fptr : Nat      -- sf->fil.fptr
deriving DecidableEq

structure MountGeom where
  csize : Nat          -- mnt->fs->csize
  l_block_size : Nat   -- mnt->dev->l_block_size
deriving DecidableEq

structure ReadOutcome where
  ret : Int
  fptr : Nat
  cltbl : Cltbl
  engineCalls : Nat
deriving DecidableEq

def fat_read (engine : Nat → EngineReply) (allocOk : Nat → Bool)
    (g : MountGeom) (s : ReadHandle) (size : Nat) : ReadOutcome :=
  -- dc.c 399-405: opportunistic link-map build before the size check
  let build :=
    if s.cltbl = Cltbl.noTbl ∧ s.mode &&& O_MODE_MASK = O_RDONLY ∧
        s.fsize > g.csize * 2 ^ g.l_block_size then
      let lm := fat_create_linkmap engine allocOk s.cltbl
      (lm.cltbl, lm.calls.length)
    else (s.cltbl, 0)
  -- dc.c 408-410: zero-size requests return 0 here
  if size = 0 then ⟨0, s.fptr, build.1, build.2⟩
  else
    let rs := min size (s.fsize - s.fptr)
    ⟨(rs : Int), s.fptr + rs, build.1, build.2 + 1⟩

/-! ## Claim C7 -/

/-- A concrete engine whose link-map construction succeeds on the first
attempt. -/
def engineAlwaysOk : Nat → EngineReply := fun _ => ⟨FR_OK, 32⟩

/-- A read-only handle on a file larger than one cluster, with no link map
attached yet and the cursor at byte 7. -/
def largeRoHandle : ReadHandle := ⟨O_RDONLY, Cltbl.noTbl, 5000, 7⟩

/-- C7 counterexample: a zero-size read does NOT always leave the engine
untouched.  On a read-only handle of a 5000-byte file (cluster 8 sectors of
512 bytes = 4096 < 5000) with no link map attached, `fat_read` with size 0
issues one engine call -- the link-map construction seek -- before returning
0 (the cursor is unchanged and the built map stays attached). -/
theorem C7_counterexample :
    fat_read engineAlwaysOk (fun _ => true) ⟨8, 9⟩ largeRoHandle 0 =
      ⟨0, 7, Cltbl.inlineTbl 32, 1⟩ ∧
    (fat_read engineAlwaysOk (fun _ => true) ⟨8, 9⟩ largeRoHandle 0).engineCalls ≠ 0 := by
  refine ⟨by decide, by decide⟩

/-- C7 (amended): a zero-size read on a valid handle returns 0 and leaves
the file cursor unaltered; it issues no engine call at all unless the
handle is read-only with no link map attached and the file exceeds one
allocation cluster, in which case the only engine traffic is the
opportunistic link-map construction (never a data read). -/
theorem C7_zero_read (engine : Nat → EngineReply) (allocOk : Nat → Bool)
    (g : MountGeom) (s : ReadHandle) :
    (fat_read engine allocOk g s 0).ret = 0 ∧
    (fat_read engine allocOk g s 0).fptr = s.fptr ∧
    (¬(s.cltbl = Cltbl.noTbl ∧ s.mode &&& O_MODE_MASK = O_RDONLY ∧
        s.fsize > g.csize * 2 ^ g.l_block_size) →
      (fat_read engine allocOk g s 0).engineCalls = 0) := by
  refine ⟨?_, ?_, fun h => ?_⟩ <;>
    · unfold fat_read
      split_ifs <;> simp_all

/-- C7 witness: the amended theorem applied to a concrete write-mode handle
(no link-map build triggers): a zero-size read returns 0, keeps the cursor
at 7, and never calls the engine. -/
theorem C7_zero_read_witness :
    (fat_read engineAlwaysOk (fun _ => true) ⟨8, 9⟩ ⟨O_WRONLY, Cltbl.noTbl, 5000, 7⟩ 0).ret = 0 ∧
    (fat_read engineAlwaysOk (fun _ => true) ⟨8, 9⟩ ⟨O_WRONLY, Cltbl.noTbl, 5000, 7⟩ 0).fptr = 7 ∧
    (fat_read engineAlwaysOk (fun _ => true) ⟨8, 9⟩ ⟨O_WRONLY, Cltbl.noTbl, 5000, 7⟩ 0).engineCalls = 0 :=
  ⟨(C7_zero_read engineAlwaysOk (fun _ => true) ⟨8, 9⟩ ⟨O_WRONLY, Cltbl.noTbl, 5000, 7⟩).1,
   (C7_zero_read engineAlwaysOk (fun _ => true) ⟨8, 9⟩ ⟨O_WRONLY, Cltbl.noTbl, 5000, 7⟩).2.1,
   (C7_zero_read engineAlwaysOk (fun _ => true) ⟨8, 9⟩ ⟨O_WRONLY, Cltbl.noTbl, 5000, 7⟩).2.2
     (by decide)⟩

/-! ## Volume/Mount Registry: `fs_fat_is_mounted` (dc.c 1207-1220) and
`fs_fat_unmount` (dc.c 1181-1204).

A registry slot is represented by the pathname its VFS handler is registered
under (`fat_mnt[i].vfsh->nmmgr.pathname`), or `none` when `vfsh` is NULL
(a free slot).  Both functions scan the slots in index order and act on the
first slot whose pathname compares equal to the argument. -/

def find_mnt : List (Option String) → String → Nat → Nat
  | [], _, _ => 0
  | s :: rest, mp, i => if s = some mp then i + 1 else find_mnt rest mp (i + 1)

/-- `fs_fat_is_mounted`: returns `i + 1` for the first slot `i` registered
under `mp`, and 0 when no slot matches. -/
def fs_fat_is_mounted (mnt : List (Option String)) (mp : String) : Nat :=
  find_mnt mnt mp 0

/-- `fs_fat_free` zeroes the matched slot; `detach_first` performs that on
the first matching slot, or reports that none matched. -/
def detach_first : List (Option String) → String → Option (List (Option String))
  | [], _ => none
  | s :: rest, mp =>
    if s = some mp then some (none :: rest)
    else
      match detach_first rest mp with
      | some rest2 => some (s :: rest2)
      | none => none

structure UnmountOutcome where
  mnt : List (Option String)
  ret : Int
  errnoSet : Option Nat
deriving DecidableEq

/-- `fs_fat_unmount`: deregister and zero the first matching slot and return
0; when no slot matches, set errno to ENOENT, return -1 and leave the
registry unchanged. -/
def fs_fat_unmount (mnt : List (Option String)) (mp : String) : UnmountOutcome :=
  match detach_first mnt mp with
  | some mnt2 => ⟨mnt2, 0, none⟩
  | none => ⟨mnt, -1, some ENOENT⟩

lemma find_mnt_nomatch (l : List (Option String)) (mp : String) (i : Nat)
    (h : ∀ s ∈ l, s ≠ some mp) : find_mnt l mp i = 0 := by
  induction l generalizing i with
  | nil => rfl
  | cons s rest ih =>
    have hs : s ≠ some mp := h s (List.mem_cons_self s rest)
    simp only [find_mnt, if_neg hs]
    exact ih (i + 1) (fun t ht => h t (List.mem_cons_of_mem s ht))

lemma find_mnt_hit (l : List (Option String)) (mp : String) (i k : Nat)
    (hk : l[k]? = some (some mp))
    (hfirst : ∀ j < k, l[j]? ≠ some (some mp)) :
    find_mnt l mp i = i + k + 1 := by
  induction l generalizing i k with
  | nil => simp at hk
  | cons s rest ih =>
    cases k with
    | zero =>
      simp only [List.getElem?_cons_zero, Option.some.injEq] at hk
      simp [find_mnt, hk]
    | succ k =>
      have hs : s ≠ some mp := by
        intro hcon
        exact hfirst 0 (Nat.succ_pos k) (by simp [hcon])
      simp only [List.getElem?_cons_succ] at hk
      simp only [find_mnt, if_neg hs]
      have := ih (i + 1) k hk
        (fun j hj => by
          have := hfirst (j + 1) (Nat.succ_lt_succ hj)
          simpa using this)
      omega

lemma detach_first_nomatch (l : List (Option String)) (mp : String)
    (h : ∀ s ∈ l, s ≠ some mp) : detach_first l mp = none := by
  induction l with
  | nil => rfl
  | cons s rest ih =>
    have hs : s ≠ some mp := h s (List.mem_cons_self s rest)
    simp only [detach_first, if_neg hs]
    rw [ih (fun t ht => h t (List.mem_cons_of_mem s ht))]

/-! ## Claim C8 -/

/-- C8: `fs_fat_is_mounted` reports the first slot registered under the path
as its index plus one (a positive sentinel: slot 0 reports as 1), and 0 when
no slot is registered under the path; `fs_fat_unmount` on a path with no
matching registered volume returns -1 with errno set to ENOENT and leaves
the registry unchanged. -/
theorem C8_mount_registry (mnt : List (Option String)) (mp : String) :
    (∀ i, mnt[i]? = some (some mp) →
      (∀ j < i, mnt[j]? ≠ some (some mp)) →
      fs_fat_is_mounted mnt mp = i + 1) ∧
    ((∀ s ∈ mnt, s ≠ some mp) → fs_fat_is_mounted mnt mp = 0) ∧
    ((∀ s ∈ mnt, s ≠ some mp) →
      fs_fat_unmount mnt mp = ⟨mnt, -1, some ENOENT⟩) := by
  refine ⟨fun i hi hfirst => ?_, fun h => ?_, fun h => ?_⟩
  · have := find_mnt_hit mnt mp 0 i hi hfirst
    unfold fs_fat_is_mounted
    omega
  · exact find_mnt_nomatch mnt mp 0 h
  · unfold fs_fat_unmount
    rw [detach_first_nomatch mnt mp h]

/-- C8 witness: on the concrete registry `[some "/sd", none]`, the path
"/sd" in slot 0 is reported as the positive sentinel 1; the unregistered
path "/ide" is reported as 0, and unmounting it returns -1 with ENOENT,
leaving the registry unchanged. -/
theorem C8_mount_registry_witness :
    fs_fat_is_mounted [some "/sd", none] "/sd" = 1 ∧
    fs_fat_is_mounted [some "/sd", none] "/ide" = 0 ∧
    fs_fat_unmount [some "/sd", none] "/ide" =
      ⟨[some "/sd", none], -1, some ENOENT⟩ :=
  ⟨(C8_mount_registry [some "/sd", none] "/sd").1 0 (by decide)
     (fun j hj => absurd hj (Nat.not_lt_zero j)),
   (C8_mount_registry [some "/sd", none] "/ide").2.1 (by decide),
   (C8_mount_registry [some "/sd", none] "/ide").2.2 (by decide)⟩

/-! ## Claim C10: the `FAT_GET_HND` guard, dc.c lines 245-254. -/

def MAX_FAT_FILES : Nat := 16

structure HndLookup where
  slot : Option Nat     -- the resolved pool index, when accepted
  errnoSet : Option Nat -- errno written by the guard, when rejected
deriving DecidableEq

/-- `FAT_GET_HND(hnd, rv)`: computes `fd = hnd - 1` and accepts exactly when
`fd > -1 && fd < MAX_FAT_FILES`, never consulting the pool's `used` flags
(the `used` parameter is deliberately ignored, as in the source); on
rejection it sets errno to ENFILE and the operation returns its failure
value without any engine call. -/
def FAT_GET_HND (used : Nat → Bool) (hnd : Int) : HndLookup :=
  -- file_t fd = ((file_t)hnd) - 1; accepted iff fd > -1 && fd < MAX_FAT_FILES
  if -1 < hnd - 1 ∧ hnd - 1 < (MAX_FAT_FILES : Int) then
    ⟨some (hnd - 1).toNat, none⟩
  else ⟨none, some ENFILE⟩

/-- C10: handle values outside 1..16 are rejected with errno ENFILE and no
slot resolved; every value in 1..16 resolves to slot `hnd - 1` with no errno
written; the outcome never depends on the pool's used flags, so an in-range
descriptor whose slot is free is still accepted. -/
theorem C10_descriptor_guard (used used2 : Nat → Bool) (hnd : Int) :
    (1 ≤ hnd → hnd ≤ 16 →
      FAT_GET_HND used hnd = ⟨some (hnd - 1).toNat, none⟩) ∧
    (hnd < 1 ∨ 16 < hnd → FAT_GET_HND used hnd = ⟨none, some ENFILE⟩) ∧
    FAT_GET_HND used hnd = FAT_GET_HND used2 hnd ∧
    (1 ≤ hnd → hnd ≤ 16 → used (hnd - 1).toNat = false →
      (FAT_GET_HND used hnd).slot = some (hnd - 1).toNat) := by
  refine ⟨fun h1 h2 => ?_, fun h => ?_, rfl, fun h1 h2 h3 => ?_⟩
  · unfold FAT_GET_HND MAX_FAT_FILES
    split_ifs with hc
    · rfl
    · exfalso
      omega
  · unfold FAT_GET_HND MAX_FAT_FILES
    split_ifs with hc
    · exfalso
      omega
    · rfl
  · unfold FAT_GET_HND MAX_FAT_FILES
    split_ifs with hc
    · rfl
    · exfalso
      omega

/-- C10 witness: descriptor 3 whose slot 2 is free (all used flags false) is
accepted and resolved to slot 2; descriptor 17 and descriptor 0 are rejected
with ENFILE. -/
theorem C10_descriptor_guard_witness :
    FAT_GET_HND (fun _ => false) 3 = ⟨some 2, none⟩ ∧
    FAT_GET_HND (fun _ => false) 17 = ⟨none, some ENFILE⟩ ∧
    FAT_GET_HND (fun _ => false) 0 = ⟨none, some ENFILE⟩ :=
  ⟨(C10_descriptor_guard (fun _ => false) (fun _ => false) 3).1
     (by decide) (by decide),
   (C10_descriptor_guard (fun _ => false) (fun _ => false) 17).2.1
     (Or.inr (by decide)),
   (C10_descriptor_guard (fun _ => false) (fun _ => false) 0).2.1
     (Or.inl (by decide))⟩

end FatFsDc
